import Mathlib

/-!
Shallow embedding of the payment reconciliation engine of
`platform-payment-sync` (`app/services/payment_processor.py`,
`app/core/amocrm_client.py`, `app/core/amocrm_mappings.py`,
`app/db/event_logger.py`) together with theorems settling the
specification claims.

Conventions of the embedding:
* Python strings become `String`; `x or None` on a string field becomes
  `Option String` via `optStr` (empty string ↦ `none`).
* The deployment configuration object `settings` becomes an explicit
  `Settings` record parameter.  The snapshot's `settings.py` lags the rest
  of the code (fields such as `PIPELINE_7_8_CLASS` are referenced but not
  declared there), so the record lists every field the embedded functions
  read, with opaque numeric values.
* Network calls of `AmoCRMClient` are modelled by an environment record
  (`CrmEnv`) supplying each call's outcome (`Except String _` for calls
  that can raise), and the engine additionally returns the list of CRM
  calls it issued (`CrmCall` trace).
* The SQLite ledger becomes a list of `LedgerRow`; the UNIQUE constraint
  on `payment_id` is the deterministic `IntegrityError` branch of
  `log_payment`.  Wall-clock columns (`created_at`, `processed_at`) and
  the raw JSON payload are not modelled.
-/

namespace PlatformPaymentSync

/-- Python's `str.lower()` restricted to the alphabets this code base
uses: ASCII `A`–`Z` and Cyrillic `А`–`Я`/`Ё`. -/
def pyCharLower (c : Char) : Char :=
  if 'A' ≤ c ∧ c ≤ 'Z' then Char.ofNat (c.toNat + 32)
  else if 'А' ≤ c ∧ c ≤ 'Я' then Char.ofNat (c.toNat + 32)
  else if c = 'Ё' then 'ё'
  else c

/-- `s.lower()` on a whole string. -/
def pyLower (s : String) : String :=
  String.mk (s.toList.map pyCharLower)

/-- Python's `needle in hay` substring test. -/
def pyContains (hay needle : String) : Bool :=
  decide (needle.toList <:+: hay.toList)

/-- Python's `x or None` for a string field: an empty string becomes
`None`. -/
def optStr (s : String) : Option String :=
  if s = "" then none else some s

/-- Helper of `pySplitComma`: structural split of a character list at
commas. -/
def splitCommaAux : List Char → List Char → List (List Char)
  | [], acc => [acc.reverse]
  | c :: rest, acc =>
    if c = ',' then acc.reverse :: splitCommaAux rest []
    else splitCommaAux rest (c :: acc)

/-- Python's `s.split(",")`. -/
def pySplitComma (s : String) : List String :=
  (splitCommaAux s.toList []).map String.mk

/-- Python's `s.strip()`: drop whitespace from both ends. -/
def pyStrip (s : String) : String :=
  String.mk
    (((s.toList.dropWhile Char.isWhitespace).reverse.dropWhile
      Char.isWhitespace).reverse)

/-! ## `app/core/amocrm_mappings.py` — `normalize_phone` -/

/-- First rewrite of `normalize_phone`: an `8`-led 11-digit number gets
its leading `8` replaced by `7`. -/
def normStep1 (digits : List Char) : List Char :=
  if digits.head? = some '8' ∧ digits.length = 11
  then '7' :: digits.tail else digits

/-- Second rewrite of `normalize_phone`: a 10-digit number not starting
with `7` gets a `7` prepended. -/
def normStep2 (d : List Char) : List Char :=
  if ¬ (d.head? = some '7') ∧ d.length = 10 then '7' :: d else d

/-- Core of `normalize_phone` on the character list of the input: an
empty input or an input with no digits is returned unchanged, otherwise
the digit subsequence is put through the two rewrites. -/
def normalizePhoneList (l : List Char) : List Char :=
  if l = [] then l
  else if l.filter Char.isDigit = [] then l
  else normStep2 (normStep1 (l.filter Char.isDigit))

/-- `normalize_phone` from `app/core/amocrm_mappings.py`. -/
def normalize_phone (phone : String) : String :=
  String.mk (normalizePhoneList phone.toList)

theorem normCore_fixed (d : List Char) (hne : d ≠ [])
    (hdig : ∀ c ∈ d, c.isDigit) :
    normStep2 (normStep1 d) ≠ [] ∧
    (∀ c ∈ normStep2 (normStep1 d), c.isDigit) ∧
    normStep1 (normStep2 (normStep1 d)) = normStep2 (normStep1 d) ∧
    normStep2 (normStep2 (normStep1 d)) = normStep2 (normStep1 d) := by
  by_cases hc1 : d.head? = some '8' ∧ d.length = 11
  · -- rule 1 fires: the result `'7' :: tail` has head `'7'`, so rule 2
    -- and both rules on a second pass are skipped
    have e1 : normStep1 d = '7' :: d.tail := by
      unfold normStep1; rw [if_pos hc1]
    have htail : ∀ c ∈ ('7' :: d.tail), c.isDigit := by
      intro c hc
      rcases List.mem_cons.mp hc with h | h
      · subst h; decide
      · exact hdig c (List.mem_of_mem_tail h)
    have f1 : normStep1 ('7' :: d.tail) = '7' :: d.tail := by
      unfold normStep1; rw [if_neg]; simp
    have f2 : normStep2 ('7' :: d.tail) = '7' :: d.tail := by
      unfold normStep2; rw [if_neg]; simp
    rw [e1, f2]
    exact ⟨by simp, htail, f1, f2⟩
  · have e1 : normStep1 d = d := by unfold normStep1; rw [if_neg hc1]
    rw [e1]
    by_cases hc2 : ¬ (d.head? = some '7') ∧ d.length = 10
    · -- rule 2 fires: the result `'7' :: d` has head `'7'`
      have e2 : normStep2 d = '7' :: d := by unfold normStep2; rw [if_pos hc2]
      have hdig7 : ∀ c ∈ ('7' :: d), c.isDigit := by
        intro c hc
        rcases List.mem_cons.mp hc with h | h
        · subst h; decide
        · exact hdig c h
      have f1 : normStep1 ('7' :: d) = '7' :: d := by
        unfold normStep1; rw [if_neg]; simp
      have f2 : normStep2 ('7' :: d) = '7' :: d := by
        unfold normStep2; rw [if_neg]; simp
      rw [e2]
      exact ⟨by simp, hdig7, f1, f2⟩
    · -- no rule fires: `d` itself satisfies neither guard
      have e2 : normStep2 d = d := by unfold normStep2; rw [if_neg hc2]
      rw [e2]
      exact ⟨hne, hdig, e1, e2⟩

theorem normalizePhoneList_idem (l : List Char) :
    normalizePhoneList (normalizePhoneList l) = normalizePhoneList l := by
  by_cases h0 : l = []
  · simp [normalizePhoneList, h0]
  · by_cases h1 : l.filter Char.isDigit = []
    · have e : normalizePhoneList l = l := by
        unfold normalizePhoneList; rw [if_neg h0, if_pos h1]
      rw [e]; exact e
    · have hdig : ∀ c ∈ l.filter Char.isDigit, c.isDigit := by
        intro c hc; exact List.of_mem_filter hc
      obtain ⟨hne, hdig', hs1, hs2⟩ :=
        normCore_fixed (l.filter Char.isDigit) h1 hdig
      have e : normalizePhoneList l =
          normStep2 (normStep1 (l.filter Char.isDigit)) := by
        unfold normalizePhoneList; rw [if_neg h0, if_neg h1]
      have hfilter : (normStep2 (normStep1 (l.filter Char.isDigit))).filter
          Char.isDigit = normStep2 (normStep1 (l.filter Char.isDigit)) :=
        List.filter_eq_self.mpr (by intro c hc; exact hdig' c hc)
      have e2 : normalizePhoneList
          (normStep2 (normStep1 (l.filter Char.isDigit))) =
          normStep2 (normStep1 (l.filter Char.isDigit)) := by
        unfold normalizePhoneList
        rw [if_neg hne, hfilter, if_neg hne, hs1, hs2]
      rw [e, e2]

theorem normalize_phone_idem (p : String) :
    normalize_phone (normalize_phone p) = normalize_phone p := by
  unfold normalize_phone
  exact congrArg String.mk (normalizePhoneList_idem p.toList)

theorem normalizePhoneList_eight_vs_bare (q : List Char) (hlen : q.length = 10)
    (hdig : ∀ c ∈ q, c.isDigit) (h7 : q.head? ≠ some '7') :
    normalizePhoneList ('8' :: q) = '7' :: q ∧
    normalizePhoneList q = '7' :: q := by
  have hqne : q ≠ [] := by
    intro h; rw [h] at hlen; simp at hlen
  have hfq : q.filter Char.isDigit = q :=
    List.filter_eq_self.mpr (by intro c hc; exact hdig c hc)
  constructor
  · have hf : ('8' :: q).filter Char.isDigit = '8' :: q := by
      rw [List.filter_cons_of_pos (by decide), hfq]
    unfold normalizePhoneList
    rw [if_neg (by simp), hf, if_neg (by simp)]
    have e1 : normStep1 ('8' :: q) = '7' :: q := by
      unfold normStep1
      rw [if_pos (by simp [hlen])]
      rfl
    rw [e1]
    unfold normStep2
    rw [if_neg (by simp)]
  · unfold normalizePhoneList
    rw [if_neg hqne, hfq, if_neg hqne]
    have e1 : normStep1 q = q := by
      unfold normStep1
      rw [if_neg (by simp [hlen])]
    rw [e1]
    unfold normStep2
    rw [if_pos ⟨by simpa using h7, hlen⟩]

/-- C10 counterexample: `"87123456789"` is an 11-digit number starting
with `8`; its bare 10-digit counterpart `"7123456789"` starts with `7`
and is left unchanged (10 digits), so the two do not normalize to the
same canonical key, refuting the claim as stated. -/
theorem claim_c10_counterexample :
    normalize_phone "87123456789" = "77123456789" ∧
    normalize_phone "7123456789" = "7123456789" ∧
    normalize_phone "87123456789" ≠ normalize_phone "7123456789" := by
  refine ⟨?_, ?_, ?_⟩ <;> decide

/-- C10 (amended): `normalize_phone` is idempotent, and an 11-digit
number starting with `8` and the corresponding bare 10-digit number
normalize to the same canonical 11-digit string starting with `7`,
provided the 10-digit number does not itself start with `7` (a 10-digit
number starting with `7` is returned unchanged). -/
theorem claim_c10_amended :
    (∀ p : String, normalize_phone (normalize_phone p) = normalize_phone p) ∧
    (∀ q : List Char, q.length = 10 → (∀ c ∈ q, c.isDigit) →
      q.head? ≠ some '7' →
      normalize_phone (String.mk ('8' :: q)) = String.mk ('7' :: q) ∧
      normalize_phone (String.mk q) = String.mk ('7' :: q)) := by
  refine ⟨normalize_phone_idem, fun q h1 h2 h3 => ?_⟩
  obtain ⟨ha, hb⟩ := normalizePhoneList_eight_vs_bare q h1 h2 h3
  constructor
  · unfold normalize_phone
    exact congrArg String.mk ha
  · unfold normalize_phone
    exact congrArg String.mk hb

/-- C10 witness: the amended claim evaluated at the docstring's own
example `8 (987) 672-60-10` / bare `9876726010`. -/
theorem claim_c10_amended_witness :
    (normalize_phone (normalize_phone "8 (987) 672-60-10") =
      normalize_phone "8 (987) 672-60-10") ∧
    (normalize_phone (String.mk ('8' :: "9876726010".toList)) =
      String.mk ('7' :: "9876726010".toList) ∧
    normalize_phone (String.mk "9876726010".toList) =
      String.mk ('7' :: "9876726010".toList)) :=
  ⟨claim_c10_amended.1 "8 (987) 672-60-10",
   claim_c10_amended.2 "9876726010".toList (by decide) (by decide) (by decide)⟩

/-! ## Data model (`app/models/payment_webhook.py`) -/

/-- `CourseSubject`: a course's subject (name, and project = exam track
label `"ЕГЭ"`/`"ОГЭ"`). -/
structure CourseSubject where
  name : String
  project : String
  deriving DecidableEq, Repr

/-- `PaymentCourse`. -/
structure PaymentCourse where
  name : String
  subject : CourseSubject
  deriving DecidableEq, Repr

/-- `CourseOrderItem`: one line item of the order. -/
structure CourseOrderItem where
  cost : Nat
  number_lessons : Nat
  course : PaymentCourse
  deriving DecidableEq, Repr

/-- `PaymentUser`. `user_class` is the optional grade (7–11). -/
structure PaymentUser where
  first_name : String
  last_name : String := ""
  phone : String
  email : String
  user_class : Option Int := none
  telegram_tag : String := ""
  telegram_id : String := ""
  deriving DecidableEq, Repr

/-- `PaymentUTM`: attribution tags, all defaulting to the empty string. -/
structure PaymentUTM where
  source : String := ""
  medium : String := ""
  campaign : String := ""
  term : String := ""
  content : String := ""
  ym : String := ""
  deriving DecidableEq, Repr

/-- `CourseOrder`.  The promo `code` (`str | int | None` in the source)
is modelled as an optional string. -/
structure CourseOrder where
  status : String
  amount : Nat
  created_at : String
  updated_at : String
  code : Option String := some ""
  course_order_items : List CourseOrderItem
  user : PaymentUser
  utm : PaymentUTM
  domain : String := ""
  payment_id : Option String := none
  payment_method : Option String := none
  currency : String := "RUB"
  deriving DecidableEq, Repr

/-- `PaymentWebhook`: the inbound payment fact. -/
structure PaymentWebhook where
  course_order : CourseOrder
  deriving DecidableEq, Repr

/-- Property `PaymentWebhook.payment_id`. -/
def PaymentWebhook.payment_id (p : PaymentWebhook) : Option String :=
  p.course_order.payment_id

/-- Property `PaymentWebhook.total_cost`: sum of the line-item costs. -/
def PaymentWebhook.total_cost (p : PaymentWebhook) : Nat :=
  (p.course_order.course_order_items.map (·.cost)).sum

/-! ## Configuration (`app/core/settings.py`)

The record lists exactly the fields the embedded functions read.  The
snapshot's `settings.py` declares only part of them (the remainder —
e.g. `PIPELINE_7_8_CLASS`, the per-class direction enum ids — is
referenced by the code but missing from the snapshot's `Settings`
class); all are opaque deployment-specific numbers, per the spec's § 6
"opaque numeric field identifier configured per deployment". -/
structure Settings where
  PIPELINE_7_8_CLASS : Nat
  PIPELINE_7_8_CLASS_AUTOPAY : Nat
  AMO_PIPELINE_PARTNERS : Nat
  AMO_STATUS_AUTOPAY_PARTNERS : Nat
  AMO_PIPELINE_YANDEX : Nat
  AMO_STATUS_AUTOPAY_YANDEX : Nat
  AMO_PIPELINE_SITE : Nat
  AMO_STATUS_AUTOPAY_SITE : Nat
  PARTNER_SOURCES : String
  YANDEX_MEDIUMS : String
  AMO_DIRECTION_OGE : Nat
  AMO_DIRECTION_EGE : Nat
  AMO_DIRECTION_CLASS_7 : Nat
  AMO_DIRECTION_CLASS_8 : Nat
  AMO_DIRECTION_CLASS_9 : Nat
  AMO_DIRECTION_CLASS_10 : Nat
  AMO_DIRECTION_CLASS_11 : Nat
  AMO_DIRECTION_OLD_CLASS_9 : Nat
  AMO_DIRECTION_OLD_CLASS_10 : Nat
  AMO_DIRECTION_OLD_CLASS_11 : Nat
  AMO_SUBJECT_OBSHCHESTVO : Nat
  AMO_SUBJECT_ENGLISH : Nat
  AMO_SUBJECT_HISTORY : Nat
  AMO_SUBJECT_RUSSIAN : Nat
  AMO_SUBJECT_PHYSICS : Nat
  AMO_SUBJECT_CHEMISTRY : Nat
  AMO_SUBJECT_LITERATURE : Nat
  AMO_SUBJECT_MATH_PROF_MASHA : Nat
  AMO_SUBJECT_MATH_BASE : Nat
  AMO_SUBJECT_BIOLOGY_ZHENYA : Nat
  AMO_SUBJECT_BIOLOGY_GELYA : Nat
  AMO_SUBJECT_INFORMATICS : Nat
  AMO_SUBJECT_MATH_PROF_SASHA : Nat
  AMO_LEAD_FIELD_SUBJECT_MATH_OGE : Nat
  AMO_LEAD_FIELD_SUBJECT_MATH_7_8 : Nat
  AMO_PURCHASE_COUNT_1 : Nat
  AMO_PURCHASE_COUNT_2 : Nat
  AMO_PURCHASE_COUNT_3 : Nat
  AMO_PURCHASE_COUNT_4 : Nat
  AMO_PURCHASE_COUNT_5 : Nat
  AMO_PURCHASE_COUNT_6 : Nat
  AMO_PURCHASE_COUNT_7 : Nat
  AMO_PURCHASE_COUNT_8 : Nat
  AMO_PURCHASE_COUNT_9 : Nat
  AMO_PURCHASE_COUNT_10 : Nat
  deriving DecidableEq, Repr

/-! ## `app/core/amocrm_mappings.py` — subject and direction lookups -/

/-- `SUBJECTS_MAPPING` as a lookup from subject name to enum id. -/
def SUBJECTS_MAPPING (s : Settings) (name : String) : Option Nat :=
  if name = "Обществознание" then some s.AMO_SUBJECT_OBSHCHESTVO
  else if name = "Английский язык" then some s.AMO_SUBJECT_ENGLISH
  else if name = "История" then some s.AMO_SUBJECT_HISTORY
  else if name = "Русский" then some s.AMO_SUBJECT_RUSSIAN
  else if name = "Физика" then some s.AMO_SUBJECT_PHYSICS
  else if name = "Химия" then some s.AMO_SUBJECT_CHEMISTRY
  else if name = "Литература" then some s.AMO_SUBJECT_LITERATURE
  else if name = "Проф. мат (Маша)" then some s.AMO_SUBJECT_MATH_PROF_MASHA
  else if name = "Математика (база)" then some s.AMO_SUBJECT_MATH_BASE
  else if name = "Биология (Женя)" then some s.AMO_SUBJECT_BIOLOGY_ZHENYA
  else if name = "Обществознание ОГЭ" then some s.AMO_SUBJECT_OBSHCHESTVO
  else if name = "Русский ОГЭ" then some s.AMO_SUBJECT_RUSSIAN
  else if name = "Математика ОГЭ" then some s.AMO_LEAD_FIELD_SUBJECT_MATH_OGE
  else if name = "Биология ОГЭ" then some s.AMO_SUBJECT_BIOLOGY_GELYA
  else if name = "Информатика" then some s.AMO_SUBJECT_INFORMATICS
  else if name = "Проф. мат (Саша)" then some s.AMO_SUBJECT_MATH_PROF_SASHA
  else if name = "Биология (Геля)" then some s.AMO_SUBJECT_BIOLOGY_GELYA
  else if name = "Математика" then some s.AMO_LEAD_FIELD_SUBJECT_MATH_7_8
  else none

/-- `get_direction_enum_id_by_class`: grade 7–11 to direction enum id. -/
def get_direction_enum_id_by_class (s : Settings) (user_class : Int) :
    Option Nat :=
  if user_class = 7 then some s.AMO_DIRECTION_CLASS_7
  else if user_class = 8 then some s.AMO_DIRECTION_CLASS_8
  else if user_class = 9 then some s.AMO_DIRECTION_CLASS_9
  else if user_class = 10 then some s.AMO_DIRECTION_CLASS_10
  else if user_class = 11 then some s.AMO_DIRECTION_CLASS_11
  else none

/-- `get_direction_enum_id_by_course_name`: direction from the lowered
course name.  The branch order mirrors the source's early returns: the
"Весенний курс" block, then the two "Математика N класс" checks, then
the non-"Весенний курс" fallback chain. -/
def get_direction_enum_id_by_course_name (s : Settings)
    (course_name : String) : Option Nat :=
  let cl := pyLower course_name
  let spring := pyContains cl "весенний курс" || pyContains cl "весенний курс 2к26"
  if spring && pyContains cl "11 класс" then some s.AMO_DIRECTION_CLASS_11
  else if spring && pyContains cl "10 класс" then some s.AMO_DIRECTION_CLASS_10
  else if spring && pyContains cl "9 класс" then some s.AMO_DIRECTION_CLASS_9
  else if pyContains cl "математика 8 класс" then some s.AMO_DIRECTION_CLASS_8
  else if pyContains cl "математика 7 класс" then some s.AMO_DIRECTION_CLASS_7
  else if !pyContains cl "весенний курс" && pyContains cl "11 класс" then
    some s.AMO_DIRECTION_OLD_CLASS_11
  else if !pyContains cl "весенний курс" && pyContains cl "10 класс" then
    some s.AMO_DIRECTION_OLD_CLASS_10
  else if !pyContains cl "весенний курс" &&
      (pyContains cl "9 класс" || pyContains cl "огэ") then
    some s.AMO_DIRECTION_OLD_CLASS_9
  else if !pyContains cl "весенний курс" && pyContains cl "8 класс" then
    some s.AMO_DIRECTION_CLASS_8
  else if !pyContains cl "весенний курс" && pyContains cl "7 класс" then
    some s.AMO_DIRECTION_CLASS_7
  else none

/-! ## `PaymentProcessor` — pure decision functions
(`app/services/payment_processor.py`) -/

/-- `PaymentProcessor.is_op_payment`: the lowered `utm_source` equals the
generic-online-payment token `"op"`. -/
def is_op_payment (p : PaymentWebhook) : Bool :=
  pyLower p.course_order.utm.source = "op"

/-- One partner-source test of `determine_pipeline_and_status`: some
token of the comma-separated `PARTNER_SOURCES`, stripped and lowered, is
a substring of the lowered `utm_source`. -/
def partnerSourceMatch (s : Settings) (utm_source : String) : Bool :=
  (pySplitComma s.PARTNER_SOURCES).any
    (fun partner => pyContains utm_source (pyLower (pyStrip partner)))

/-- The paid-traffic test of `determine_pipeline_and_status`: some token
of the comma-separated `YANDEX_MEDIUMS`, stripped and lowered, is a
substring of the lowered `utm_medium`. -/
def yandexMediumMatch (s : Settings) (utm_medium : String) : Bool :=
  (pySplitComma s.YANDEX_MEDIUMS).any
    (fun medium => pyContains utm_medium (pyLower (pyStrip medium)))

/-- `PaymentProcessor.determine_pipeline_and_status`: grade 7/8 cohort
first, then partner sources, then paid-traffic mediums, then the default
Site pipeline. -/
def determine_pipeline_and_status (s : Settings) (utm : PaymentUTM)
    (user_class : Option Int) : Nat × Nat :=
  if user_class = some 7 ∨ user_class = some 8 then
    (s.PIPELINE_7_8_CLASS, s.PIPELINE_7_8_CLASS_AUTOPAY)
  else if partnerSourceMatch s (pyLower utm.source) then
    (s.AMO_PIPELINE_PARTNERS, s.AMO_STATUS_AUTOPAY_PARTNERS)
  else if yandexMediumMatch s (pyLower utm.medium) then
    (s.AMO_PIPELINE_YANDEX, s.AMO_STATUS_AUTOPAY_YANDEX)
  else
    (s.AMO_PIPELINE_SITE, s.AMO_STATUS_AUTOPAY_SITE)

/-- Direction priority 1 of `_update_lead_fields`: scan the line items
in order and take the first paid item whose course name resolves to a
direction.  (Enum ids are assumed nonzero, so Python's truthiness test on
the lookup result coincides with `isSome`.) -/
def directionByCourseNames (s : Settings) (items : List CourseOrderItem) :
    Option Nat :=
  items.findSome? (fun item =>
    if item.cost > 0 then get_direction_enum_id_by_course_name s item.course.name
    else none)

/-- Direction priority 2 of `_update_lead_fields`: map the (truthy)
user grade through `get_direction_enum_id_by_class`. -/
def directionByClass (s : Settings) (user_class : Option Int) : Option Nat :=
  match user_class with
  | some c => if c ≠ 0 then get_direction_enum_id_by_class s c else none
  | none => none

/-- Direction priority 3 of `_update_lead_fields`: the first item whose
subject's project label is `"ОГЭ"` or `"ЕГЭ"`. -/
def directionByProject (s : Settings) (items : List CourseOrderItem) :
    Option Nat :=
  items.findSome? (fun item =>
    if item.course.subject.project = "ОГЭ" then some s.AMO_DIRECTION_OGE
    else if item.course.subject.project = "ЕГЭ" then some s.AMO_DIRECTION_EGE
    else none)

/-- The full direction fallback chain of `_update_lead_fields`, ending in
the hardcoded EGE default. -/
def computeDirection (s : Settings) (order : CourseOrder) : Nat :=
  match directionByCourseNames s order.course_order_items with
  | some d => d
  | none =>
    match directionByClass s order.user.user_class with
    | some d => d
    | none =>
      match directionByProject s order.course_order_items with
      | some d => d
      | none => s.AMO_DIRECTION_EGE

/-- The subject enum ids collected by `_update_lead_fields`: mapping hits
in item order, then deduplicated (the source's `list(set(...))`, whose
iteration order is not semantically relevant, is modelled as an
order-preserving dedup). -/
def subjectsEnumIds (s : Settings) (order : CourseOrder) : List Nat :=
  ((order.course_order_items.filterMap
    (fun item => SUBJECTS_MAPPING s item.course.subject.name))).dedup

/-! ## `AmoCRMClient.update_lead_fields` (`app/core/amocrm_client.py`) -/

/-- `AmoCRMClient._get_purchase_count_enum_id`: enum id for a purchase
count of 1–10, `none` outside that range. -/
def get_purchase_count_enum_id (s : Settings) (count : Nat) : Option Nat :=
  if count = 1 then some s.AMO_PURCHASE_COUNT_1
  else if count = 2 then some s.AMO_PURCHASE_COUNT_2
  else if count = 3 then some s.AMO_PURCHASE_COUNT_3
  else if count = 4 then some s.AMO_PURCHASE_COUNT_4
  else if count = 5 then some s.AMO_PURCHASE_COUNT_5
  else if count = 6 then some s.AMO_PURCHASE_COUNT_6
  else if count = 7 then some s.AMO_PURCHASE_COUNT_7
  else if count = 8 then some s.AMO_PURCHASE_COUNT_8
  else if count = 9 then some s.AMO_PURCHASE_COUNT_9
  else if count = 10 then some s.AMO_PURCHASE_COUNT_10
  else none

/-- The keyword-argument set of `AmoCRMClient.update_lead_fields` as
declared in `app/core/amocrm_client.py`.  (The processor's call site
additionally passes `purchased_subjects_count`, `user_class`,
`is_parent` and `promo_code`, which this client signature does not
declare; they play no part in the client's update logic.) -/
structure UpdateLeadArgs where
  subjects : Option (List Nat) := none
  direction : Option Nat := none
  last_payment_amount : Option Nat := none
  payment_status : Option String := none
  last_payment_date : Option String := none
  payment_id : Option String := none
  status_id : Option Nat := none
  total_paid : Option Nat := none
  utm_source : Option String := none
  utm_medium : Option String := none
  utm_campaign : Option String := none
  utm_content : Option String := none
  utm_term : Option String := none
  ym_uid : Option String := none
  domain : Option String := none
  deriving DecidableEq, Repr

/-- The remote state of a deal, as read and written by
`update_lead_fields`: budget (`price`), pipeline/stage, the
purchase-count select (by its numeric value) and the attribution custom
fields. -/
structure LeadState where
  price : Nat
  pipeline_id : Nat
  status_id : Nat
  purchase_count : Nat := 0
  utm_source : Option String := none
  utm_medium : Option String := none
  utm_campaign : Option String := none
  utm_content : Option String := none
  utm_term : Option String := none
  ym_uid : Option String := none
  domain : Option String := none
  deriving DecidableEq, Repr

/-- The PATCH body assembled by `update_lead_fields`: each field is
included only under the source's truthiness / `is not None` test.  The
purchase-count entry carries the written count together with its enum id
(amoCRM renders the select's numeric value from the enum). -/
structure LeadPatch where
  subjects : Option (List Nat) := none
  direction : Option Nat := none
  last_payment_amount : Option Nat := none
  purchase_count : Option (Nat × Nat) := none
  payment_status_value : Option Nat := none
  last_payment_date : Option String := none
  payment_id : Option String := none
  utm_source : Option String := none
  utm_medium : Option String := none
  utm_campaign : Option String := none
  utm_content : Option String := none
  utm_term : Option String := none
  ym_uid : Option String := none
  domain : Option String := none
  status_id : Option Nat := none
  price : Option Nat := none
  deriving DecidableEq, Repr

/-- The payment-status select mapping inside `update_lead_fields`
(`CONFIRMED`→1, `PENDING`→0, `FAILED`→2, `CANCELLED`→3, default 0). -/
def paymentStatusValue (payment_status : String) : Nat :=
  if payment_status = "CONFIRMED" then 1
  else if payment_status = "PENDING" then 0
  else if payment_status = "FAILED" then 2
  else if payment_status = "CANCELLED" then 3
  else 0

/-- The PATCH body `update_lead_fields` builds from the current remote
state (`st`, just re-fetched) and its arguments.  The purchase count
written is strictly `st.purchase_count + 1`, skipped when outside 1–10;
`price` is set (not incremented) to `total_paid`; `status_id` is only
included when the argument is not `None`.  (The date→timestamp and
payment-id→int conversions are kept as the raw strings.) -/
def updateLeadFieldsPatch (s : Settings) (st : LeadState)
    (args : UpdateLeadArgs) : LeadPatch :=
  { subjects := args.subjects.bind (fun l => if l = [] then none else some l)
    direction := args.direction
    last_payment_amount := args.last_payment_amount
    purchase_count :=
      match get_purchase_count_enum_id s (st.purchase_count + 1) with
      | some enumId => some (st.purchase_count + 1, enumId)
      | none => none
    payment_status_value :=
      (args.payment_status.bind optStr).map paymentStatusValue
    last_payment_date := args.last_payment_date.bind optStr
    payment_id := args.payment_id.bind optStr
    utm_source := args.utm_source.bind optStr
    utm_medium := args.utm_medium.bind optStr
    utm_campaign := args.utm_campaign.bind optStr
    utm_content := args.utm_content.bind optStr
    utm_term := args.utm_term.bind optStr
    ym_uid := args.ym_uid.bind optStr
    domain := args.domain.bind optStr
    status_id := args.status_id
    price := args.total_paid }

/-- Effect of the PATCH on the remote deal: fields present in the patch
overwrite, absent fields are untouched; the pipeline is never part of
the body. -/
def applyLeadPatch (st : LeadState) (p : LeadPatch) : LeadState :=
  { st with
    price := p.price.getD st.price
    status_id := p.status_id.getD st.status_id
    purchase_count :=
      match p.purchase_count with
      | some (n, _) => n
      | none => st.purchase_count
    utm_source := p.utm_source.orElse (fun _ => st.utm_source)
    utm_medium := p.utm_medium.orElse (fun _ => st.utm_medium)
    utm_campaign := p.utm_campaign.orElse (fun _ => st.utm_campaign)
    utm_content := p.utm_content.orElse (fun _ => st.utm_content)
    utm_term := p.utm_term.orElse (fun _ => st.utm_term)
    ym_uid := p.ym_uid.orElse (fun _ => st.ym_uid)
    domain := p.domain.orElse (fun _ => st.domain) }

/-- `AmoCRMClient.update_lead_fields` as a state transformer: re-fetch
the deal (`st`), assemble the PATCH, apply it. -/
def update_lead_fields (s : Settings) (st : LeadState)
    (args : UpdateLeadArgs) : LeadState :=
  applyLeadPatch st (updateLeadFieldsPatch s st args)

/-- The argument record `PaymentProcessor._update_lead_fields` passes to
the client: subjects and the direction chain, `last_payment_amount` and
`total_paid` both equal to `payment.total_cost`, the given `status_id`
(`none` on the existing-deal path), and the UTM fields only when
`skip_utm` is false. -/
def buildUpdateArgs (s : Settings) (payment : PaymentWebhook)
    (status_id : Option Nat) (skip_utm : Bool) : UpdateLeadArgs :=
  let order := payment.course_order
  let ids := subjectsEnumIds s order
  { subjects := if ids = [] then none else some ids
    direction := some (computeDirection s order)
    last_payment_amount := some payment.total_cost
    payment_status := some order.status
    last_payment_date := some order.updated_at
    payment_id := order.payment_id
    status_id := status_id
    total_paid := some payment.total_cost
    utm_source := if skip_utm then none else optStr order.utm.source
    utm_medium := if skip_utm then none else optStr order.utm.medium
    utm_campaign := if skip_utm then none else optStr order.utm.campaign
    utm_content := if skip_utm then none else optStr order.utm.content
    utm_term := if skip_utm then none else optStr order.utm.term
    ym_uid := if skip_utm then none else optStr order.utm.ym
    domain := optStr order.domain }

/-! ## Deduplication ledger (`app/db/event_logger.py`) -/

/-- One row of the `payment_events` table (wall-clock columns and the
raw JSON payload are not modelled). -/
structure LedgerRow where
  payment_id : String
  amount : Nat
  payment_date : String
  status : String
  contact_id : Option Nat := none
  lead_id : Option Nat := none
  pipeline_id : Option Nat := none
  status_id : Option Nat := none
  is_lead_created : Bool := false
  last_error : Option String := none
  deriving DecidableEq, Repr

/-- `EventLogger.is_payment_processed`: `SELECT COUNT(*) ... WHERE
payment_id = ?` is positive. -/
def is_payment_processed (ledger : List LedgerRow) (pid : String) : Bool :=
  ledger.any (fun r => r.payment_id = pid)

/-- `EventLogger.log_payment`: the INSERT succeeds and appends the row,
unless the UNIQUE constraint on `payment_id` is violated, in which case
the `IntegrityError` is re-raised. -/
def log_payment (ledger : List LedgerRow) (row : LedgerRow) :
    Except String (List LedgerRow) :=
  if ledger.any (fun r => r.payment_id = row.payment_id) then
    Except.error "IntegrityError: UNIQUE constraint failed: payment_events.payment_id"
  else
    Except.ok (ledger ++ [row])

/-! ## The reconciliation engine (`PaymentProcessor.process_payment`) -/

/-- A deal as returned by `AmoCRMClient.find_op_lead` (id, pipeline,
stage, and the ids of its `_embedded` contacts). -/
structure FoundLead where
  id : Nat
  pipeline_id : Nat
  status_id : Nat
  contacts : List Nat := []
  deriving DecidableEq, Repr

/-- The `UNPROCESSED_STATUSES` dict literal of `process_payment` (step
2.5): per-pipeline stage ids in which a manager has not yet worked the
deal. -/
def UNPROCESSED_STATUSES (s : Settings) : List (Nat × List Nat) :=
  [(s.AMO_PIPELINE_SITE, [82318294, 41044773]),
   (s.AMO_PIPELINE_YANDEX, [82465570, 79982002]),
   (s.AMO_PIPELINE_PARTNERS, [82324050, 69764098]),
   (s.PIPELINE_7_8_CLASS, [82320578, 81078194])]

/-- Value lookup in a Python dict literal: a later duplicate key
overwrites an earlier one; a missing key yields the `.get` default `[]`. -/
def dictGet (table : List (Nat × List Nat)) (key : Nat) : List Nat :=
  (table.foldl (fun acc kv => if kv.1 = key then some kv.2 else acc) none).getD []

/-- The per-pipeline untouched-stage list an existing candidate is
checked against. -/
def unprocessedStatuses (s : Settings) (pipeline : Nat) : List Nat :=
  dictGet (UNPROCESSED_STATUSES s) pipeline

/-- Step 2.5 of `process_payment`: a candidate sitting in an untouched
stage of its pipeline is discarded (reset to `None`). -/
def surviveUntouched (s : Settings) (lead : FoundLead) : Option FoundLead :=
  if lead.status_id ∈ unprocessedStatuses s lead.pipeline_id then none
  else some lead

/-- One CRM call issued by the engine, with the arguments the engine
passes. -/
inductive CrmCall where
  | findOpLead (is_utm_op : Bool)
  | createContact (name : String)
      (phone email tg_id tg_username : Option String)
  | createLead (name : String) (contact_id : Nat) (price : Nat)
      (pipeline_id : Nat) (status_id : Nat)
      (utm_source utm_medium utm_campaign utm_content utm_term
        ym_uid domain : Option String)
  | updateLeadFields (lead_id : Nat) (args : UpdateLeadArgs)
  | addLeadNote (lead_id : Nat)
  | createTaskForContactManager (lead_id : Nat)
  deriving DecidableEq, Repr

/-- Environment supplying the outcome of each external call
`process_payment` can make: the two `find_op_lead` searches (which never
raise: the client catches internally and returns `None`), the fallible
creation/update/note/task calls, and injectable failures for the two
`log_payment` call sites (beyond the deterministic `IntegrityError`). -/
structure CrmEnv where
  narrowLead : Option FoundLead := none
  broadLead : Option FoundLead := none
  createContactRes : Except String Nat := Except.ok 1
  createLeadRes : Except String Nat := Except.ok 1
  updateLeadRes : Except String Unit := Except.ok ()
  addNoteRes : Except String Unit := Except.ok ()
  createTaskRes : Except String Nat := Except.ok 1
  successLogFail : Option String := none
  errorLogFail : Option String := none

/-- `ProcessResult` from `payment_processor.py`. -/
structure ProcessResult where
  status : String
  contact_id : Option Nat := none
  lead_id : Option Nat := none
  message : String := ""
  error : Option String := none
  deriving DecidableEq, Repr

/-- `payment.payment_id or "unknown"`. -/
def paymentIdOrUnknown (p : PaymentWebhook) : String :=
  match p.payment_id with
  | some s => if s = "" then "unknown" else s
  | none => "unknown"

/-- `f"{first_name} {last_name}".strip() or "Клиент без имени"`. -/
def displayName (u : PaymentUser) : String :=
  let n := pyStrip (u.first_name ++ " " ++ u.last_name)
  if n = "" then "Клиент без имени" else n

/-- Phase-1 candidate of `process_payment`: the narrow name-based search
result, else — only when `utm_source=op` — the broad 13-pipeline search
result. -/
def discoveredLead (env : CrmEnv) (p : PaymentWebhook) : Option FoundLead :=
  match env.narrowLead with
  | some l => some l
  | none => if is_op_payment p then env.broadLead else none

/-- The `find_op_lead` calls phase 1 issues: the narrow search always,
the broad search only when `utm_source=op` and the narrow search found
nothing. -/
def searchTrace (env : CrmEnv) (p : PaymentWebhook) : List CrmCall :=
  CrmCall.findOpLead false ::
    (if is_op_payment p && env.narrowLead.isNone then [CrmCall.findOpLead true]
     else [])

/-- The ledger row written on the error path. -/
def errorRow (p : PaymentWebhook) (pid e : String) : LedgerRow :=
  { payment_id := pid
    amount := p.total_cost
    payment_date := p.course_order.updated_at
    status := "error"
    last_error := some e }

/-- The top-level `except` block of `process_payment`: best-effort write
an `error` ledger row (a secondary failure — injected or the
`IntegrityError` — is swallowed), then return the generic error result. -/
def handleProcessingError (env : CrmEnv) (ledger : List LedgerRow)
    (p : PaymentWebhook) (pid e : String) (trace : List CrmCall) :
    ProcessResult × List LedgerRow × List CrmCall :=
  let ledger' :=
    match env.errorLogFail with
    | some _ => ledger
    | none =>
      match log_payment ledger (errorRow p pid e) with
      | Except.ok l => l
      | Except.error _ => ledger
  ({ status := "error"
     message := "Error processing payment: " ++ e
     error := some e }, ledger', trace)

/-- The success-path `log_payment` call: the injected failure, if any,
pre-empts the deterministic insert. -/
def successLog (env : CrmEnv) (ledger : List LedgerRow) (row : LedgerRow) :
    Except String (List LedgerRow) :=
  match env.successLogFail with
  | some e => Except.error e
  | none => log_payment ledger row

/-- `PaymentProcessor.process_payment`: dedup gate, two-strategy
existing-deal discovery, untouched-stage override, then either the
update-in-place path or the create-contact-and-deal path, with the
top-level error boundary.  Returns the `ProcessResult`, the ledger after
the attempt, and the trace of CRM calls issued. -/
def process_payment (s : Settings) (env : CrmEnv) (ledger : List LedgerRow)
    (p : PaymentWebhook) : ProcessResult × List LedgerRow × List CrmCall :=
  let pid := paymentIdOrUnknown p
  if is_payment_processed ledger pid then
    ({ status := "duplicate"
       message := "Payment " ++ pid ++ " already processed" }, ledger, [])
  else
    let user := p.course_order.user
    let tr0 := searchTrace env p
    match (discoveredLead env p).bind (surviveUntouched s) with
    | some lead =>
      -- step 3: update the found deal without changing pipeline/stage
      match lead.contacts.head? with
      | none =>
        handleProcessingError env ledger p pid
          ("Lead " ++ toString lead.id ++ " has no contacts") tr0
      | some contact_id =>
        if contact_id = 0 then
          handleProcessingError env ledger p pid
            ("Lead " ++ toString lead.id ++ " has no contacts") tr0
        else
          let args := buildUpdateArgs s p none true
          let tr1 := tr0 ++ [CrmCall.updateLeadFields lead.id args]
          match env.updateLeadRes with
          | Except.error e => handleProcessingError env ledger p pid e tr1
          | Except.ok _ =>
            let tr2 := tr1 ++ [CrmCall.addLeadNote lead.id]
            match env.addNoteRes with
            | Except.error e => handleProcessingError env ledger p pid e tr2
            | Except.ok _ =>
              -- the follow-up task is attempted; its failure is swallowed
              let tr3 := tr2 ++ [CrmCall.createTaskForContactManager lead.id]
              let row : LedgerRow :=
                { payment_id := pid
                  amount := p.total_cost
                  payment_date := p.course_order.updated_at
                  status := "success"
                  contact_id := some contact_id
                  lead_id := some lead.id
                  pipeline_id := some lead.pipeline_id
                  status_id := some lead.status_id
                  is_lead_created := false }
              match successLog env ledger row with
              | Except.error e => handleProcessingError env ledger p pid e tr3
              | Except.ok ledger' =>
                ({ status := "success"
                   contact_id := some contact_id
                   lead_id := some lead.id
                   message := "Payment " ++ pid ++
                     " processed (existing lead updated)" }, ledger', tr3)
    | none =>
      -- standard path: create a fresh contact and a fresh deal
      let target := determine_pipeline_and_status s p.course_order.utm
        user.user_class
      let cname := displayName user
      let tr1 := tr0 ++ [CrmCall.createContact cname (optStr user.phone)
        (optStr user.email) (optStr user.telegram_id)
        (optStr user.telegram_tag)]
      match env.createContactRes with
      | Except.error e => handleProcessingError env ledger p pid e tr1
      | Except.ok contact_id =>
        let utm := p.course_order.utm
        let lead_name := "Оплата платформы - " ++ displayName user
        let tr2 := tr1 ++ [CrmCall.createLead lead_name contact_id
          p.total_cost target.1 target.2 (optStr utm.source)
          (optStr utm.medium) (optStr utm.campaign) (optStr utm.content)
          (optStr utm.term) (optStr utm.ym) (optStr p.course_order.domain)]
        match env.createLeadRes with
        | Except.error e => handleProcessingError env ledger p pid e tr2
        | Except.ok lead_id =>
          let args := buildUpdateArgs s p (some target.2) true
          let tr3 := tr2 ++ [CrmCall.updateLeadFields lead_id args]
          match env.updateLeadRes with
          | Except.error e => handleProcessingError env ledger p pid e tr3
          | Except.ok _ =>
            let tr4 := tr3 ++ [CrmCall.addLeadNote lead_id]
            match env.addNoteRes with
            | Except.error e => handleProcessingError env ledger p pid e tr4
            | Except.ok _ =>
              let row : LedgerRow :=
                { payment_id := pid
                  amount := p.total_cost
                  payment_date := p.course_order.updated_at
                  status := "success"
                  contact_id := some contact_id
                  lead_id := some lead_id
                  pipeline_id := some target.1
                  status_id := some target.2
                  is_lead_created := true }
              match successLog env ledger row with
              | Except.error e => handleProcessingError env ledger p pid e tr4
              | Except.ok ledger' =>
                ({ status := "success"
                   contact_id := some contact_id
                   lead_id := some lead_id
                   message := "Payment " ++ pid ++
                     " processed successfully" }, ledger', tr4)

/-! ## Concrete instances used by witnesses and counterexamples -/

/-- A concrete deployment configuration with pairwise distinct ids
(pipeline/stage ids and the partner/paid-traffic token lists follow the
source's comments and the spec's examples). -/
def sampleSettings : Settings :=
  { PIPELINE_7_8_CLASS := 9090814
    PIPELINE_7_8_CLASS_AUTOPAY := 81078198
    AMO_PIPELINE_PARTNERS := 7654322
    AMO_STATUS_AUTOPAY_PARTNERS := 69764102
    AMO_PIPELINE_YANDEX := 7654324
    AMO_STATUS_AUTOPAY_YANDEX := 79982006
    AMO_PIPELINE_SITE := 7654320
    AMO_STATUS_AUTOPAY_SITE := 41044777
    PARTNER_SOURCES := "advcake, tbank,skillbox"
    YANDEX_MEDIUMS := "cpc,ysearch"
    AMO_DIRECTION_OGE := 500100
    AMO_DIRECTION_EGE := 500200
    AMO_DIRECTION_CLASS_7 := 1380919
    AMO_DIRECTION_CLASS_8 := 1380921
    AMO_DIRECTION_CLASS_9 := 1380923
    AMO_DIRECTION_CLASS_10 := 1380925
    AMO_DIRECTION_CLASS_11 := 1380927
    AMO_DIRECTION_OLD_CLASS_9 := 1379411
    AMO_DIRECTION_OLD_CLASS_10 := 1379413
    AMO_DIRECTION_OLD_CLASS_11 := 1379415
    AMO_SUBJECT_OBSHCHESTVO := 600001
    AMO_SUBJECT_ENGLISH := 600002
    AMO_SUBJECT_HISTORY := 600003
    AMO_SUBJECT_RUSSIAN := 600004
    AMO_SUBJECT_PHYSICS := 600005
    AMO_SUBJECT_CHEMISTRY := 600006
    AMO_SUBJECT_LITERATURE := 600007
    AMO_SUBJECT_MATH_PROF_MASHA := 600008
    AMO_SUBJECT_MATH_BASE := 600009
    AMO_SUBJECT_BIOLOGY_ZHENYA := 600010
    AMO_SUBJECT_BIOLOGY_GELYA := 600011
    AMO_SUBJECT_INFORMATICS := 600012
    AMO_SUBJECT_MATH_PROF_SASHA := 600013
    AMO_LEAD_FIELD_SUBJECT_MATH_OGE := 600014
    AMO_LEAD_FIELD_SUBJECT_MATH_7_8 := 600015
    AMO_PURCHASE_COUNT_1 := 700001
    AMO_PURCHASE_COUNT_2 := 700002
    AMO_PURCHASE_COUNT_3 := 700003
    AMO_PURCHASE_COUNT_4 := 700004
    AMO_PURCHASE_COUNT_5 := 700005
    AMO_PURCHASE_COUNT_6 := 700006
    AMO_PURCHASE_COUNT_7 := 700007
    AMO_PURCHASE_COUNT_8 := 700008
    AMO_PURCHASE_COUNT_9 := 700009
    AMO_PURCHASE_COUNT_10 := 700010 }

/-- The payment of the repository's own end-to-end webhook fixture
(payment `7166790691`, three ЕГЭ line items of 3927 each, empty
attribution, grade absent). -/
def samplePayment : PaymentWebhook :=
  { course_order :=
    { status := "CONFIRMED"
      amount := 11781
      created_at := "2025-10-09 14:37:23"
      updated_at := "2025-11-12 08:20:02"
      code := some ""
      course_order_items :=
        [{ cost := 3927, number_lessons := 10
           course := { name := "Годовой 2к26 Стандарт"
                       subject := { name := "Обществознание", project := "ЕГЭ" } } },
         { cost := 3927, number_lessons := 10
           course := { name := "Годовой 2к26 Стандарт"
                       subject := { name := "Английский язык", project := "ЕГЭ" } } },
         { cost := 3927, number_lessons := 9
           course := { name := "Годовой 2к26 Стандарт"
                       subject := { name := "Русский", project := "ЕГЭ" } } }]
      user := { first_name := "Александра", last_name := "Казакова"
                phone := "+7 (964) 080-10-82"
                email := "alex.kazakova2810@mail.ru"
                telegram_tag := "alexkazakova", telegram_id := "1208542295" }
      utm := {}
      domain := "pl.el-ed.ru"
      payment_id := some "7166790691"
      payment_method := some "card" } }

/-! ## Claim C3 — attribution priority -/

/-- C3: `determine_pipeline_and_status` is total and applies its rules
in strict priority order: grade 7/8 wins over everything; otherwise a
partner-source substring match (case-insensitive, over the configured
comma-separated tokens) wins even when the medium also matches; otherwise
a paid-traffic medium match; otherwise the default Site pair.  The last
conjunct spells out that the partner test is a substring test of each
configured token in the lowered source. -/
theorem claim_c3_attribution_priority (s : Settings) (utm : PaymentUTM)
    (uc : Option Int) :
    (uc = some 7 ∨ uc = some 8 →
      determine_pipeline_and_status s utm uc =
        (s.PIPELINE_7_8_CLASS, s.PIPELINE_7_8_CLASS_AUTOPAY)) ∧
    (¬ (uc = some 7 ∨ uc = some 8) →
      partnerSourceMatch s (pyLower utm.source) = true →
      determine_pipeline_and_status s utm uc =
        (s.AMO_PIPELINE_PARTNERS, s.AMO_STATUS_AUTOPAY_PARTNERS)) ∧
    (¬ (uc = some 7 ∨ uc = some 8) →
      partnerSourceMatch s (pyLower utm.source) = false →
      yandexMediumMatch s (pyLower utm.medium) = true →
      determine_pipeline_and_status s utm uc =
        (s.AMO_PIPELINE_YANDEX, s.AMO_STATUS_AUTOPAY_YANDEX)) ∧
    (¬ (uc = some 7 ∨ uc = some 8) →
      partnerSourceMatch s (pyLower utm.source) = false →
      yandexMediumMatch s (pyLower utm.medium) = false →
      determine_pipeline_and_status s utm uc =
        (s.AMO_PIPELINE_SITE, s.AMO_STATUS_AUTOPAY_SITE)) ∧
    (partnerSourceMatch s (pyLower utm.source) = true ↔
      ∃ tok ∈ pySplitComma s.PARTNER_SOURCES,
        pyContains (pyLower utm.source) (pyLower (pyStrip tok)) = true) := by
  refine ⟨?_, ?_, ?_, ?_, ?_⟩
  · intro h; simp [determine_pipeline_and_status, h]
  · intro h hp; simp [determine_pipeline_and_status, h, hp]
  · intro h hp hy; simp [determine_pipeline_and_status, h, hp, hy]
  · intro h hp hy; simp [determine_pipeline_and_status, h, hp, hy]
  · simp [partnerSourceMatch, List.any_eq_true]

/-- C3 witness: mixed-case partner token inside a longer source string,
with a paid-traffic medium also present, grade absent — the Partners
pair wins; and grade 7 with the same attribution goes to the 7/8
cohort pair. -/
theorem claim_c3_attribution_priority_witness :
    determine_pipeline_and_status sampleSettings
      { source := "special_AdVcAkE_campaign", medium := "cpc" } none =
      (sampleSettings.AMO_PIPELINE_PARTNERS,
       sampleSettings.AMO_STATUS_AUTOPAY_PARTNERS) ∧
    determine_pipeline_and_status sampleSettings
      { source := "special_AdVcAkE_campaign", medium := "cpc" } (some 7) =
      (sampleSettings.PIPELINE_7_8_CLASS,
       sampleSettings.PIPELINE_7_8_CLASS_AUTOPAY) :=
  ⟨(claim_c3_attribution_priority sampleSettings
      { source := "special_AdVcAkE_campaign", medium := "cpc" } none).2.1
      (by simp) (by decide),
   (claim_c3_attribution_priority sampleSettings
      { source := "special_AdVcAkE_campaign", medium := "cpc" } (some 7)).1
      (Or.inl rfl)⟩

/-! ## Claim C4 — budget is set, not incremented -/

/-- C4: the processor always passes `total_paid = payment.total_cost`,
the client puts it in the PATCH as `price` verbatim, and applying the
PATCH overwrites the deal's budget.  Hence two sequential updates for
two payments against the same deal leave the budget equal to the second
payment's `total_cost`, not a running sum. -/
theorem claim_c4_budget_set_not_increment (s : Settings) (st : LeadState)
    (p1 p2 : PaymentWebhook) (sid1 sid2 : Option Nat) (b1 b2 : Bool) :
    (buildUpdateArgs s p1 sid1 b1).total_paid = some p1.total_cost ∧
    (updateLeadFieldsPatch s st (buildUpdateArgs s p1 sid1 b1)).price =
      some p1.total_cost ∧
    (update_lead_fields s st (buildUpdateArgs s p1 sid1 b1)).price =
      p1.total_cost ∧
    (update_lead_fields s
        (update_lead_fields s st (buildUpdateArgs s p1 sid1 b1))
        (buildUpdateArgs s p2 sid2 b2)).price = p2.total_cost := by
  refine ⟨rfl, rfl, ?_, ?_⟩ <;>
    simp [update_lead_fields, applyLeadPatch, updateLeadFieldsPatch,
      buildUpdateArgs]

/-! ## Claim C8 — purchase count is a strict +1 increment -/

theorem get_purchase_count_enum_id_isSome (s : Settings) (n : Nat)
    (h1 : 1 ≤ n) (h2 : n ≤ 10) :
    ∃ e, get_purchase_count_enum_id s n = some e := by
  interval_cases n <;> exact ⟨_, rfl⟩

theorem update_lead_fields_purchase_count (s : Settings) (st : LeadState)
    (args : UpdateLeadArgs) (h : st.purchase_count + 1 ≤ 10) :
    (update_lead_fields s st args).purchase_count = st.purchase_count + 1 := by
  obtain ⟨e, he⟩ := get_purchase_count_enum_id_isSome s
    (st.purchase_count + 1) (by omega) h
  simp [update_lead_fields, applyLeadPatch, updateLeadFieldsPatch, he]

/-- C8: within one attempt, the written purchase count is exactly the
count just re-read from the deal plus one (the PATCH entry pairs the new
count with its enum id); replaying the same update with the dedup gate
bypassed therefore increments twice. -/
theorem claim_c8_purchase_count_increment (s : Settings) (st : LeadState)
    (a1 a2 : UpdateLeadArgs) (h : st.purchase_count + 2 ≤ 10) :
    (∃ e, get_purchase_count_enum_id s (st.purchase_count + 1) = some e ∧
      (updateLeadFieldsPatch s st a1).purchase_count =
        some (st.purchase_count + 1, e)) ∧
    (update_lead_fields s st a1).purchase_count = st.purchase_count + 1 ∧
    (update_lead_fields s (update_lead_fields s st a1) a2).purchase_count =
      st.purchase_count + 2 := by
  obtain ⟨e, he⟩ := get_purchase_count_enum_id_isSome s
    (st.purchase_count + 1) (by omega) (by omega)
  have h1 : (update_lead_fields s st a1).purchase_count =
      st.purchase_count + 1 :=
    update_lead_fields_purchase_count s st a1 (by omega)
  refine ⟨⟨e, he, by simp [updateLeadFieldsPatch, he]⟩, h1, ?_⟩
  have h2 : (update_lead_fields s (update_lead_fields s st a1) a2).purchase_count =
      (update_lead_fields s st a1).purchase_count + 1 :=
    update_lead_fields_purchase_count s _ a2 (by omega)
  omega

/-- C8 witness: a deal with purchase count 3 goes to 4, and a replayed
update takes it to 5. -/
theorem claim_c8_purchase_count_increment_witness :
    (∃ e, get_purchase_count_enum_id sampleSettings 4 = some e ∧
      (updateLeadFieldsPatch sampleSettings
        { price := 0, pipeline_id := 1, status_id := 2, purchase_count := 3 }
        {}).purchase_count = some (4, e)) ∧
    (update_lead_fields sampleSettings
      { price := 0, pipeline_id := 1, status_id := 2, purchase_count := 3 }
      {}).purchase_count = 4 ∧
    (update_lead_fields sampleSettings
      (update_lead_fields sampleSettings
        { price := 0, pipeline_id := 1, status_id := 2, purchase_count := 3 }
        {}) {}).purchase_count = 5 :=
  claim_c8_purchase_count_increment sampleSettings
    { price := 0, pipeline_id := 1, status_id := 2, purchase_count := 3 }
    {} {} (by decide)

/-! ## Claim C7 — direction fallback chain -/

/-- The direction procedure as the claim words it: priority (a) consults
only the FIRST line item with non-zero cost.  Stated from the claim's
text for comparison with `computeDirection`, which is translated from
the source and scans all paid items until one resolves. -/
def directionFirstPaidOnly (s : Settings) (order : CourseOrder) : Nat :=
  let d1 :=
    match order.course_order_items.find? (fun item => item.cost > 0) with
    | some item => get_direction_enum_id_by_course_name s item.course.name
    | none => none
  match d1 with
  | some d => d
  | none =>
    match directionByClass s order.user.user_class with
    | some d => d
    | none =>
      match directionByProject s order.course_order_items with
      | some d => d
      | none => s.AMO_DIRECTION_EGE

/-- An order whose first paid item's course name resolves to no
direction while the second paid item's name does, and whose user grade
is 9. -/
def c7Order : CourseOrder :=
  { status := "CONFIRMED"
    amount := 7854
    created_at := "2025-10-09 14:37:23"
    updated_at := "2025-11-12 08:20:02"
    course_order_items :=
      [{ cost := 3927, number_lessons := 10
         course := { name := "Алгебра интенсив"
                     subject := { name := "Математика (база)", project := "" } } },
       { cost := 3927, number_lessons := 10
         course := { name := "Весенний курс 2к26 ЕГЭ 11 класс"
                     subject := { name := "Русский", project := "ЕГЭ" } } }]
    user := { first_name := "A", phone := "", email := "", user_class := some 9 }
    utm := {} }

/-- C7 counterexample: on `c7Order` the source scans past the first paid
item (whose name resolves to nothing) and takes the direction of the
second paid item's name (`11 класс` → 1380927); the claim's procedure —
"the first line item with non-zero cost", then the grade — would take
the grade-9 direction (1380923) instead. -/
theorem claim_c7_direction_counterexample :
    computeDirection sampleSettings c7Order =
      sampleSettings.AMO_DIRECTION_CLASS_11 ∧
    directionFirstPaidOnly sampleSettings c7Order =
      sampleSettings.AMO_DIRECTION_CLASS_9 ∧
    computeDirection sampleSettings c7Order ≠
      directionFirstPaidOnly sampleSettings c7Order := by
  refine ⟨?_, ?_, ?_⟩ <;> decide

/-- C7 (amended): the direction written to the deal is determined by
trying, in order: (a) the names of the line items with non-zero cost,
in item order, taking the first that matches a course-name pattern;
(b) if unresolved, the user's grade; (c) if still unresolved, the first
item with an explicit `ОГЭ`/`ЕГЭ` project label; (d) the hardcoded EGE
default — the procedure never raises and always yields a direction. -/
theorem claim_c7_direction_chain (s : Settings) (order : CourseOrder) :
    (∀ d, directionByCourseNames s order.course_order_items = some d →
      computeDirection s order = d) ∧
    (directionByCourseNames s order.course_order_items = none →
      ∀ d, directionByClass s order.user.user_class = some d →
      computeDirection s order = d) ∧
    (directionByCourseNames s order.course_order_items = none →
      directionByClass s order.user.user_class = none →
      ∀ d, directionByProject s order.course_order_items = some d →
      computeDirection s order = d) ∧
    (directionByCourseNames s order.course_order_items = none →
      directionByClass s order.user.user_class = none →
      directionByProject s order.course_order_items = none →
      computeDirection s order = s.AMO_DIRECTION_EGE) := by
  refine ⟨?_, ?_, ?_, ?_⟩ <;> intros <;> simp_all [computeDirection]

/-- C7 witness: the end-to-end fixture order (no course-name match, no
grade, `ЕГЭ` project labels) resolves through priority (c) to the EGE
direction enum. -/
theorem claim_c7_direction_chain_witness :
    computeDirection sampleSettings samplePayment.course_order =
      sampleSettings.AMO_DIRECTION_EGE :=
  (claim_c7_direction_chain sampleSettings samplePayment.course_order).2.2.1
    (by decide) (by decide) sampleSettings.AMO_DIRECTION_EGE (by decide)

/-! ## Behaviour of the engine's error boundary and ledger writes -/

theorem handleProcessingError_spec (env : CrmEnv) (ledger : List LedgerRow)
    (p : PaymentWebhook) (pid e : String) (trace : List CrmCall) :
    (handleProcessingError env ledger p pid e trace).1.status = "error" ∧
    (handleProcessingError env ledger p pid e trace).1.error = some e ∧
    ((handleProcessingError env ledger p pid e trace).2.1 = ledger ∨
      (handleProcessingError env ledger p pid e trace).2.1 =
        ledger ++ [errorRow p pid e]) ∧
    (handleProcessingError env ledger p pid e trace).2.2 = trace := by
  refine ⟨rfl, rfl, ?_, rfl⟩
  unfold handleProcessingError
  cases he : env.errorLogFail with
  | some f => left; rfl
  | none =>
    by_cases hc : ledger.any (fun r => r.payment_id = (errorRow p pid e).payment_id)
    · left; simp [log_payment, hc]
    · right; simp [log_payment, hc]

theorem successLog_ok (env : CrmEnv) (ledger : List LedgerRow)
    (row : LedgerRow) (l' : List LedgerRow)
    (h : successLog env ledger row = Except.ok l') :
    l' = ledger ++ [row] := by
  unfold successLog at h
  cases he : env.successLogFail with
  | some f => rw [he] at h; cases h
  | none =>
    rw [he] at h
    unfold log_payment at h
    by_cases hc : ledger.any (fun r => r.payment_id = row.payment_id)
    · rw [if_pos hc] at h; cases h
    · rw [if_neg hc] at h
      cases h
      rfl

/-- Exhaustive outcome analysis of `process_payment`: a run is a
duplicate (ledger untouched, no CRM calls), a success (exactly one new
ledger row, carrying the payment's id with status `success`), or an
error (the generic error result, with the `error` row appended
best-effort). -/
theorem process_payment_cases (s : Settings) (env : CrmEnv)
    (ledger : List LedgerRow) (p : PaymentWebhook) :
    (is_payment_processed ledger (paymentIdOrUnknown p) = true ∧
      (process_payment s env ledger p).1.status = "duplicate" ∧
      (process_payment s env ledger p).2.1 = ledger ∧
      (process_payment s env ledger p).2.2 = []) ∨
    (is_payment_processed ledger (paymentIdOrUnknown p) = false ∧
      (process_payment s env ledger p).1.status = "success" ∧
      ∃ row, (process_payment s env ledger p).2.1 = ledger ++ [row] ∧
        row.payment_id = paymentIdOrUnknown p ∧ row.status = "success") ∨
    (is_payment_processed ledger (paymentIdOrUnknown p) = false ∧
      (process_payment s env ledger p).1.status = "error" ∧
      ∃ e, (process_payment s env ledger p).1.error = some e ∧
        ((process_payment s env ledger p).2.1 = ledger ∨
          (process_payment s env ledger p).2.1 =
            ledger ++ [errorRow p (paymentIdOrUnknown p) e])) := by
  by_cases hdup : is_payment_processed ledger (paymentIdOrUnknown p) = true
  · left
    unfold process_payment
    rw [if_pos hdup]
    exact ⟨hdup, rfl, rfl, rfl⟩
  · right
    have hd : is_payment_processed ledger (paymentIdOrUnknown p) = false := by
      simpa using hdup
    unfold process_payment
    rw [if_neg hdup]
    dsimp only
    repeat' split
    all_goals
      first
      | (rename_i ledgerNew heq
         exact Or.inl ⟨hd, rfl, _, successLog_ok _ _ _ _ heq, rfl, rfl⟩)
      | (exact Or.inr ⟨hd, (handleProcessingError_spec _ _ _ _ _ _).1, _,
          (handleProcessingError_spec _ _ _ _ _ _).2.1,
          (handleProcessingError_spec _ _ _ _ _ _).2.2.1⟩)

theorem handleProcessingError_status (env : CrmEnv) (ledger : List LedgerRow)
    (p : PaymentWebhook) (pid e : String) (trace : List CrmCall) :
    (handleProcessingError env ledger p pid e trace).1.status = "error" := rfl

theorem handleProcessingError_trace (env : CrmEnv) (ledger : List LedgerRow)
    (p : PaymentWebhook) (pid e : String) (trace : List CrmCall) :
    (handleProcessingError env ledger p pid e trace).2.2 = trace := rfl

theorem process_payment_of_processed (s : Settings) (env : CrmEnv)
    (ledger : List LedgerRow) (p : PaymentWebhook)
    (h : is_payment_processed ledger (paymentIdOrUnknown p) = true) :
    process_payment s env ledger p =
      ({ status := "duplicate"
         message := "Payment " ++ paymentIdOrUnknown p ++
           " already processed" }, ledger, []) := by
  unfold process_payment
  rw [if_pos h]

theorem mem_searchTrace_false (env : CrmEnv) (p : PaymentWebhook) :
    CrmCall.findOpLead false ∈ searchTrace env p := by
  unfold searchTrace
  exact List.mem_cons_self _ _

theorem mem_searchTrace_true (env : CrmEnv) (p : PaymentWebhook) :
    CrmCall.findOpLead true ∈ searchTrace env p ↔
      env.narrowLead = none ∧ is_op_payment p = true := by
  unfold searchTrace
  split
  next hc =>
    simp only [Bool.and_eq_true, Option.isNone_iff_eq_none] at hc
    simp [hc]
  next hc =>
    simp only [Bool.and_eq_true, Option.isNone_iff_eq_none] at hc
    constructor
    · intro hmem
      simp at hmem
    · intro ⟨h1, h2⟩
      exact absurd ⟨h2, h1⟩ hc

/-! ## Claim C9 — the single error boundary -/

/-- C9: `process_payment` always returns one of the outcomes
`duplicate`/`success`/`error` — the embedding is a total function, every
failing step lands in the boundary handler — and on `error` the result
carries the exception message while the ledger receives the `error` row
best-effort: either the row was appended, or a secondary failure while
writing it was swallowed and the ledger is untouched.  In both cases the
caller gets the generic error result, never a propagated exception. -/
theorem claim_c9_error_boundary (s : Settings) (env : CrmEnv)
    (ledger : List LedgerRow) (p : PaymentWebhook) :
    ((process_payment s env ledger p).1.status = "duplicate" ∨
      (process_payment s env ledger p).1.status = "success" ∨
      (process_payment s env ledger p).1.status = "error") ∧
    ((process_payment s env ledger p).1.status = "error" →
      ∃ e, (process_payment s env ledger p).1.error = some e ∧
        ((process_payment s env ledger p).2.1 = ledger ∨
          (process_payment s env ledger p).2.1 =
            ledger ++ [errorRow p (paymentIdOrUnknown p) e])) := by
  rcases process_payment_cases s env ledger p with
    ⟨_, h2, _, _⟩ | ⟨_, h2, _⟩ | ⟨_, h2, e, he, hl⟩
  · refine ⟨Or.inl h2, fun hc => ?_⟩
    rw [h2] at hc
    exact absurd hc (by decide)
  · refine ⟨Or.inr (Or.inl h2), fun hc => ?_⟩
    rw [h2] at hc
    exact absurd hc (by decide)
  · exact ⟨Or.inr (Or.inr h2), fun _ => ⟨e, he, hl⟩⟩

/-- A run in which the CRM update call raises (HTTP 500 after exhausted
retries): an existing verified candidate in a worked stage is found, the
update fails. -/
def envUpdateFails : CrmEnv :=
  { narrowLead := some { id := 77, pipeline_id := 1, status_id := 2, contacts := [5] }
    updateLeadRes := Except.error "HTTP 500" }

/-- C9 witness: the failing update run on an empty ledger ends with
status `error` and the boundary's best-effort ledger write. -/
theorem claim_c9_error_boundary_witness :
    (process_payment sampleSettings envUpdateFails [] samplePayment).1.status =
      "error" ∧
    ∃ e, (process_payment sampleSettings envUpdateFails [] samplePayment).1.error =
        some e ∧
      ((process_payment sampleSettings envUpdateFails [] samplePayment).2.1 = [] ∨
        (process_payment sampleSettings envUpdateFails [] samplePayment).2.1 =
          [] ++ [errorRow samplePayment (paymentIdOrUnknown samplePayment) e]) :=
  ⟨by decide,
   (claim_c9_error_boundary sampleSettings envUpdateFails [] samplePayment).2
     (by decide)⟩

/-! ## Claim C1 — dedup gate and sequential idempotence -/

theorem countP_zero_of_not_processed (ledger : List LedgerRow) (pid : String)
    (h : is_payment_processed ledger pid = false) :
    ledger.countP (fun r => r.payment_id = pid) = 0 := by
  unfold is_payment_processed at h
  rw [List.any_eq_false] at h
  rw [List.countP_eq_zero]
  intro a ha
  exact h a ha

/-- C1: if the payment id is already in the ledger, `process_payment`
terminates with outcome `duplicate`, issues no CRM call and leaves the
ledger unchanged; and a second sequential submission after a successful
first one yields `duplicate` with no CRM calls, no new ledger row, and
exactly one ledger row for that id. -/
theorem claim_c1_dedup_gate (s : Settings) (env : CrmEnv)
    (ledger : List LedgerRow) (p : PaymentWebhook) :
    (is_payment_processed ledger (paymentIdOrUnknown p) = true →
      process_payment s env ledger p =
        ({ status := "duplicate"
           message := "Payment " ++ paymentIdOrUnknown p ++
             " already processed" }, ledger, [])) ∧
    (is_payment_processed ledger (paymentIdOrUnknown p) = false →
      (process_payment s env ledger p).1.status = "success" →
      (process_payment s env (process_payment s env ledger p).2.1 p).1.status =
        "duplicate" ∧
      (process_payment s env (process_payment s env ledger p).2.1 p).2.1 =
        (process_payment s env ledger p).2.1 ∧
      (process_payment s env (process_payment s env ledger p).2.1 p).2.2 = [] ∧
      ((process_payment s env ledger p).2.1).countP
        (fun r => r.payment_id = paymentIdOrUnknown p) = 1) := by
  refine ⟨process_payment_of_processed s env ledger p, ?_⟩
  intro h0 hs
  rcases process_payment_cases s env ledger p with
    ⟨h1, _, _, _⟩ | ⟨_, _, row, hl, hpid, _⟩ | ⟨_, herr, _⟩
  · rw [h0] at h1
    exact absurd h1 (by decide)
  · have hproc : is_payment_processed (ledger ++ [row])
        (paymentIdOrUnknown p) = true := by
      simp [is_payment_processed, hpid]
    have e2 := process_payment_of_processed s env (ledger ++ [row]) p hproc
    rw [hl]
    refine ⟨by rw [e2], by rw [e2], by rw [e2], ?_⟩
    rw [List.countP_append, countP_zero_of_not_processed ledger _ h0]
    simp [hpid]
  · rw [hs] at herr
    exact absurd herr (by decide)

/-- The all-calls-succeed environment with no existing candidate: the
engine takes the create-contact-and-deal path. -/
def envAllOk : CrmEnv := {}

/-- C1 witness: the end-to-end fixture payment, submitted twice in
sequence starting from an empty ledger: the second run is a duplicate
with no CRM calls and the ledger holds exactly one row for
`"7166790691"`. -/
theorem claim_c1_dedup_gate_witness :
    (process_payment sampleSettings envAllOk
      (process_payment sampleSettings envAllOk [] samplePayment).2.1
      samplePayment).1.status = "duplicate" ∧
    (process_payment sampleSettings envAllOk
      (process_payment sampleSettings envAllOk [] samplePayment).2.1
      samplePayment).2.1 =
      (process_payment sampleSettings envAllOk [] samplePayment).2.1 ∧
    (process_payment sampleSettings envAllOk
      (process_payment sampleSettings envAllOk [] samplePayment).2.1
      samplePayment).2.2 = [] ∧
    ((process_payment sampleSettings envAllOk [] samplePayment).2.1).countP
      (fun r => r.payment_id = paymentIdOrUnknown samplePayment) = 1 :=
  (claim_c1_dedup_gate sampleSettings envAllOk [] samplePayment).2
    (by decide) (by decide)

/-! ## Claim C6 — when the broad search is attempted -/

/-- C6: on a non-duplicate run, the narrow Strategy-A search
(`find_op_lead` with `is_utm_op=False`) is always issued, and the broad
Strategy-B search (`is_utm_op=True`, over the large pipeline set) is
issued if and only if Strategy A returned no candidate AND the payment's
lowered `utm_source` equals the token `"op"` (which is exactly
`is_op_payment`). -/
theorem claim_c6_broad_search_condition (s : Settings) (env : CrmEnv)
    (ledger : List LedgerRow) (p : PaymentWebhook)
    (h : is_payment_processed ledger (paymentIdOrUnknown p) = false) :
    CrmCall.findOpLead false ∈ (process_payment s env ledger p).2.2 ∧
    (CrmCall.findOpLead true ∈ (process_payment s env ledger p).2.2 ↔
      env.narrowLead = none ∧ is_op_payment p = true) ∧
    (is_op_payment p = (pyLower p.course_order.utm.source = "op")) := by
  refine ⟨?_, ?_, ?_⟩
  · unfold process_payment
    rw [if_neg (by simp [h])]
    dsimp only
    repeat' split
    all_goals
      simp [handleProcessingError_trace, mem_searchTrace_false]
  · unfold process_payment
    rw [if_neg (by simp [h])]
    dsimp only
    repeat' split
    all_goals
      simp [handleProcessingError_trace, mem_searchTrace_true]
  · simp [is_op_payment]

/-- C6 witness: an `utm_source="OP"` payment (mixed case) whose narrow
search finds nothing: the broad search appears in the trace; and the
fixture payment (empty source): it does not. -/
theorem claim_c6_broad_search_condition_witness :
    (CrmCall.findOpLead true ∈
      (process_payment sampleSettings envAllOk []
        { course_order := { samplePayment.course_order with
            utm := { source := "OP" } } }).2.2 ↔
      envAllOk.narrowLead = none ∧
      is_op_payment { course_order := { samplePayment.course_order with
        utm := { source := "OP" } } } = true) ∧
    (CrmCall.findOpLead true ∈
      (process_payment sampleSettings envAllOk [] samplePayment).2.2 ↔
      envAllOk.narrowLead = none ∧ is_op_payment samplePayment = true) :=
  ⟨(claim_c6_broad_search_condition sampleSettings envAllOk []
      { course_order := { samplePayment.course_order with
          utm := { source := "OP" } } } (by decide)).2.1,
   (claim_c6_broad_search_condition sampleSettings envAllOk [] samplePayment
      (by decide)).2.1⟩

/-! ## Claim C2 — the untouched-stage override -/

theorem discovered_bind_none (s : Settings) (env : CrmEnv)
    (p : PaymentWebhook) (lead : FoundLead)
    (hfound : discoveredLead env p = some lead)
    (hun : lead.status_id ∈ unprocessedStatuses s lead.pipeline_id) :
    (discoveredLead env p).bind (surviveUntouched s) = none := by
  rw [hfound]
  simp [surviveUntouched, hun]

theorem discovered_bind_none_nulled (s : Settings) (env : CrmEnv)
    (p : PaymentWebhook) :
    (discoveredLead { env with narrowLead := none, broadLead := none } p).bind
      (surviveUntouched s) = none := by
  unfold discoveredLead
  dsimp only
  split <;> rfl

theorem updateCall_not_in_searchTrace (env : CrmEnv) (p : PaymentWebhook)
    (lid : Nat) (args : UpdateLeadArgs) :
    CrmCall.updateLeadFields lid args ∉ searchTrace env p := by
  unfold searchTrace
  split <;> simp

theorem successLog_eq_of_field (env env2 : CrmEnv)
    (h : env2.successLogFail = env.successLogFail) :
    successLog env2 = successLog env := by
  funext ledger row
  unfold successLog
  rw [h]

theorem handleProcessingError_eq_of_field (env env2 : CrmEnv)
    (h : env2.errorLogFail = env.errorLogFail) :
    handleProcessingError env2 = handleProcessingError env := by
  funext ledger p pid e trace
  unfold handleProcessingError
  rw [h]

/-- Two environments that agree on everything but the search results,
both of which yield no surviving candidate, produce the same result and
the same ledger (only the recorded search trace may differ). -/
theorem process_payment_no_candidate_eq (s : Settings) (env env2 : CrmEnv)
    (ledger : List LedgerRow) (p : PaymentWebhook)
    (hnone : (discoveredLead env p).bind (surviveUntouched s) = none)
    (hnone2 : (discoveredLead env2 p).bind (surviveUntouched s) = none)
    (hcc : env2.createContactRes = env.createContactRes)
    (hcl : env2.createLeadRes = env.createLeadRes)
    (hul : env2.updateLeadRes = env.updateLeadRes)
    (han : env2.addNoteRes = env.addNoteRes)
    (hsl : env2.successLogFail = env.successLogFail)
    (hel : env2.errorLogFail = env.errorLogFail) :
    (process_payment s env ledger p).1 = (process_payment s env2 ledger p).1 ∧
    (process_payment s env ledger p).2.1 =
      (process_payment s env2 ledger p).2.1 := by
  by_cases hdup : is_payment_processed ledger (paymentIdOrUnknown p) = true
  · rw [process_payment_of_processed s env ledger p hdup,
      process_payment_of_processed s env2 ledger p hdup]
    exact ⟨rfl, rfl⟩
  · unfold process_payment
    rw [if_neg hdup, if_neg hdup]
    dsimp only
    rw [hnone, hnone2]
    dsimp only
    rw [hcc, hcl, hul, han, successLog_eq_of_field env env2 hsl,
      handleProcessingError_eq_of_field env env2 hel]
    constructor <;> (repeat' split) <;> rfl

/-- Discarding an untouched-stage candidate makes the run
observationally equal (result and ledger) to the run with no candidate
at all. -/
theorem process_payment_discard_eq (s : Settings) (env : CrmEnv)
    (ledger : List LedgerRow) (p : PaymentWebhook)
    (hnone : (discoveredLead env p).bind (surviveUntouched s) = none) :
    (process_payment s env ledger p).1 =
      (process_payment s { env with narrowLead := none, broadLead := none }
        ledger p).1 ∧
    (process_payment s env ledger p).2.1 =
      (process_payment s { env with narrowLead := none, broadLead := none }
        ledger p).2.1 :=
  process_payment_no_candidate_eq s env
    { env with narrowLead := none, broadLead := none } ledger p hnone
    (discovered_bind_none_nulled s env p) rfl rfl rfl rfl rfl rfl

/-- With no surviving candidate, no `updateLeadFields` call can target
any id other than the freshly created deal's id. -/
theorem process_payment_no_update_on_discarded (s : Settings) (env : CrmEnv)
    (ledger : List LedgerRow) (p : PaymentWebhook) (badId newId : Nat)
    (hnone : (discoveredLead env p).bind (surviveUntouched s) = none)
    (hcl : env.createLeadRes = Except.ok newId) (hne : newId ≠ badId) :
    ∀ args, CrmCall.updateLeadFields badId args ∉
      (process_payment s env ledger p).2.2 := by
  intro args hmem
  by_cases hdup : is_payment_processed ledger (paymentIdOrUnknown p) = true
  · rw [process_payment_of_processed s env ledger p hdup] at hmem
    simp at hmem
  · unfold process_payment at hmem
    rw [if_neg hdup] at hmem
    dsimp only at hmem
    rw [hnone] at hmem
    dsimp only at hmem
    repeat' split at hmem
    all_goals
      simp only [handleProcessingError_trace] at hmem
    all_goals
      simp [updateCall_not_in_searchTrace] at hmem
    all_goals
      simp_all

/-- With no surviving candidate, a successful run logs a row with
`is_lead_created = true`. -/
theorem process_payment_created_row (s : Settings) (env : CrmEnv)
    (ledger : List LedgerRow) (p : PaymentWebhook)
    (hnone : (discoveredLead env p).bind (surviveUntouched s) = none)
    (hs : (process_payment s env ledger p).1.status = "success") :
    ∃ row, (process_payment s env ledger p).2.1 = ledger ++ [row] ∧
      row.payment_id = paymentIdOrUnknown p ∧ row.status = "success" ∧
      row.is_lead_created = true := by
  by_cases hdup : is_payment_processed ledger (paymentIdOrUnknown p) = true
  · rw [process_payment_of_processed s env ledger p hdup] at hs
    simp at hs
  · revert hs
    unfold process_payment
    rw [if_neg hdup]
    dsimp only
    rw [hnone]
    dsimp only
    repeat' split
    all_goals intro hs
    all_goals
      first
      | (rw [handleProcessingError_status] at hs
         exact absurd hs (by decide))
      | (rename_i ledgerNew heq
         exact ⟨_, successLog_ok _ _ _ _ heq, rfl, rfl, rfl⟩)

/-- C2: a phase-1 candidate whose (pipeline, stage) pair is listed in the
untouched-stage table is discarded: the engine behaves exactly as in the
no-candidate case (same result, same ledger — it creates a new contact
and a new deal), records `is_lead_created = true` on success, and issues
no update call targeting the discarded deal's id (the only update call
targets the freshly created deal). -/
theorem claim_c2_untouched_override (s : Settings) (env : CrmEnv)
    (ledger : List LedgerRow) (p : PaymentWebhook) (lead : FoundLead)
    (newId : Nat)
    (hfound : discoveredLead env p = some lead)
    (hun : lead.status_id ∈ unprocessedStatuses s lead.pipeline_id)
    (hcl : env.createLeadRes = Except.ok newId)
    (hne : newId ≠ lead.id) :
    ((process_payment s env ledger p).1 =
      (process_payment s { env with narrowLead := none, broadLead := none }
        ledger p).1) ∧
    ((process_payment s env ledger p).2.1 =
      (process_payment s { env with narrowLead := none, broadLead := none }
        ledger p).2.1) ∧
    (∀ args, CrmCall.updateLeadFields lead.id args ∉
      (process_payment s env ledger p).2.2) ∧
    ((process_payment s env ledger p).1.status = "success" →
      ∃ row, (process_payment s env ledger p).2.1 = ledger ++ [row] ∧
        row.payment_id = paymentIdOrUnknown p ∧ row.status = "success" ∧
        row.is_lead_created = true) := by
  have hnone := discovered_bind_none s env p lead hfound hun
  obtain ⟨h1, h2⟩ := process_payment_discard_eq s env ledger p hnone
  exact ⟨h1, h2,
    process_payment_no_update_on_discarded s env ledger p lead.id newId
      hnone hcl hne,
    process_payment_created_row s env ledger p hnone⟩

/-- A candidate sitting in the Site pipeline's "Новая заявка" untouched
stage. -/
def untouchedLead : FoundLead :=
  { id := 77
    pipeline_id := sampleSettings.AMO_PIPELINE_SITE
    status_id := 82318294
    contacts := [5] }

/-- An environment whose narrow search finds `untouchedLead` and whose
creation calls succeed (the created deal gets id 1). -/
def envUntouched : CrmEnv := { narrowLead := some untouchedLead }

/-- C2 witness: the untouched-stage candidate run on the fixture
payment behaves like the no-candidate run, never updates deal 77, and
logs `is_lead_created = true`. -/
theorem claim_c2_untouched_override_witness :
    ((process_payment sampleSettings envUntouched [] samplePayment).1 =
      (process_payment sampleSettings
        { envUntouched with narrowLead := none, broadLead := none }
        [] samplePayment).1) ∧
    ((process_payment sampleSettings envUntouched [] samplePayment).2.1 =
      (process_payment sampleSettings
        { envUntouched with narrowLead := none, broadLead := none }
        [] samplePayment).2.1) ∧
    (∀ args, CrmCall.updateLeadFields untouchedLead.id args ∉
      (process_payment sampleSettings envUntouched [] samplePayment).2.2) ∧
    ((process_payment sampleSettings envUntouched [] samplePayment).1.status =
        "success" →
      ∃ row, (process_payment sampleSettings envUntouched [] samplePayment).2.1 =
          [] ++ [row] ∧
        row.payment_id = paymentIdOrUnknown samplePayment ∧
        row.status = "success" ∧ row.is_lead_created = true) :=
  claim_c2_untouched_override sampleSettings envUntouched [] samplePayment
    untouchedLead 1 rfl (by decide) rfl (by decide)

/-! ## Claim C5 — existing-deal path updates only payment-fact fields -/

theorem discovered_bind_some (s : Settings) (env : CrmEnv)
    (p : PaymentWebhook) (lead : FoundLead)
    (hfound : discoveredLead env p = some lead)
    (hsurv : lead.status_id ∉ unprocessedStatuses s lead.pipeline_id) :
    (discoveredLead env p).bind (surviveUntouched s) = some lead := by
  rw [hfound]
  simp [surviveUntouched, hsurv]

/-- The update call on the existing-deal path is always issued with
`status_id = none` and `skip_utm = True` once a candidate with a
(nonzero) linked contact survives phase 2, whatever the later calls
do. -/
theorem process_payment_existing_update_call (s : Settings) (env : CrmEnv)
    (ledger : List LedgerRow) (p : PaymentWebhook) (lead : FoundLead)
    (cid : Nat)
    (hdup : ¬ is_payment_processed ledger (paymentIdOrUnknown p) = true)
    (hsome : (discoveredLead env p).bind (surviveUntouched s) = some lead)
    (hcontact : lead.contacts.head? = some cid) (hcid : ¬ cid = 0) :
    CrmCall.updateLeadFields lead.id (buildUpdateArgs s p none true) ∈
      (process_payment s env ledger p).2.2 := by
  unfold process_payment
  rw [if_neg hdup]
  dsimp only
  rw [hsome]
  dsimp only
  rw [hcontact]
  dsimp only
  rw [if_neg hcid]
  repeat' split
  all_goals simp [handleProcessingError_trace]

/-- A successful existing-deal run appends exactly one row: `success`,
`is_lead_created = false`, carrying the deal's own pipeline and stage. -/
theorem process_payment_existing_row (s : Settings) (env : CrmEnv)
    (ledger : List LedgerRow) (p : PaymentWebhook) (lead : FoundLead)
    (cid : Nat)
    (hsome : (discoveredLead env p).bind (surviveUntouched s) = some lead)
    (hcontact : lead.contacts.head? = some cid) (hcid : ¬ cid = 0)
    (hs : (process_payment s env ledger p).1.status = "success") :
    ∃ row, (process_payment s env ledger p).2.1 = ledger ++ [row] ∧
      row.payment_id = paymentIdOrUnknown p ∧ row.status = "success" ∧
      row.is_lead_created = false ∧ row.contact_id = some cid ∧
      row.lead_id = some lead.id ∧
      row.pipeline_id = some lead.pipeline_id ∧
      row.status_id = some lead.status_id := by
  by_cases hdup : is_payment_processed ledger (paymentIdOrUnknown p) = true
  · rw [process_payment_of_processed s env ledger p hdup] at hs
    simp at hs
  · revert hs
    unfold process_payment
    rw [if_neg hdup]
    dsimp only
    rw [hsome]
    dsimp only
    rw [hcontact]
    dsimp only
    rw [if_neg hcid]
    repeat' split
    all_goals intro hs
    all_goals
      first
      | (rw [handleProcessingError_status] at hs
         exact absurd hs (by decide))
      | (rename_i ledgerNew heq
         exact ⟨_, successLog_ok _ _ _ _ heq, rfl, rfl, rfl, rfl, rfl, rfl, rfl⟩)

/-- C5: on the existing-deal path the engine issues one update for the
found deal whose arguments carry no stage (`status_id = none`) and no
attribution fields (`skip_utm`: all UTM arguments are `none`); applying
such an update leaves the deal's pipeline, stage and attribution fields
unchanged on any remote state; and the outcome is recorded as `success`
with `is_lead_created = false`. -/
theorem claim_c5_existing_deal_frame (s : Settings) (env : CrmEnv)
    (ledger : List LedgerRow) (p : PaymentWebhook) (lead : FoundLead)
    (cid : Nat)
    (hdup : ¬ is_payment_processed ledger (paymentIdOrUnknown p) = true)
    (hfound : discoveredLead env p = some lead)
    (hsurv : lead.status_id ∉ unprocessedStatuses s lead.pipeline_id)
    (hcontact : lead.contacts.head? = some cid) (hcid : ¬ cid = 0) :
    (CrmCall.updateLeadFields lead.id (buildUpdateArgs s p none true) ∈
      (process_payment s env ledger p).2.2) ∧
    ((buildUpdateArgs s p none true).status_id = none ∧
      (buildUpdateArgs s p none true).utm_source = none ∧
      (buildUpdateArgs s p none true).utm_medium = none ∧
      (buildUpdateArgs s p none true).utm_campaign = none ∧
      (buildUpdateArgs s p none true).utm_content = none ∧
      (buildUpdateArgs s p none true).utm_term = none ∧
      (buildUpdateArgs s p none true).ym_uid = none) ∧
    (∀ st : LeadState,
      (update_lead_fields s st (buildUpdateArgs s p none true)).pipeline_id =
        st.pipeline_id ∧
      (update_lead_fields s st (buildUpdateArgs s p none true)).status_id =
        st.status_id ∧
      (update_lead_fields s st (buildUpdateArgs s p none true)).utm_source =
        st.utm_source ∧
      (update_lead_fields s st (buildUpdateArgs s p none true)).utm_medium =
        st.utm_medium ∧
      (update_lead_fields s st (buildUpdateArgs s p none true)).utm_campaign =
        st.utm_campaign ∧
      (update_lead_fields s st (buildUpdateArgs s p none true)).utm_content =
        st.utm_content ∧
      (update_lead_fields s st (buildUpdateArgs s p none true)).utm_term =
        st.utm_term ∧
      (update_lead_fields s st (buildUpdateArgs s p none true)).ym_uid =
        st.ym_uid) ∧
    ((process_payment s env ledger p).1.status = "success" →
      ∃ row, (process_payment s env ledger p).2.1 = ledger ++ [row] ∧
        row.payment_id = paymentIdOrUnknown p ∧ row.status = "success" ∧
        row.is_lead_created = false ∧ row.contact_id = some cid ∧
        row.lead_id = some lead.id ∧
        row.pipeline_id = some lead.pipeline_id ∧
        row.status_id = some lead.status_id) := by
  have hsome := discovered_bind_some s env p lead hfound hsurv
  refine ⟨process_payment_existing_update_call s env ledger p lead cid hdup
      hsome hcontact hcid,
    ⟨rfl, rfl, rfl, rfl, rfl, rfl, rfl⟩, ?_,
    process_payment_existing_row s env ledger p lead cid hsome hcontact hcid⟩
  intro st
  refine ⟨rfl, ?_, ?_, ?_, ?_, ?_, ?_, ?_⟩ <;>
    simp [update_lead_fields, applyLeadPatch, updateLeadFieldsPatch,
      buildUpdateArgs]

/-- A candidate in the Site pipeline sitting in a worked (non-untouched)
stage, with linked contact 5. -/
def workedLead : FoundLead :=
  { id := 88
    pipeline_id := sampleSettings.AMO_PIPELINE_SITE
    status_id := 55001122
    contacts := [5] }

/-- An environment whose narrow search finds `workedLead`. -/
def envWorked : CrmEnv := { narrowLead := some workedLead }

/-- C5 witness: the worked-stage candidate run on the fixture payment
issues the stage-free, attribution-free update for deal 88 and logs
`success` with `is_lead_created = false`. -/
theorem claim_c5_existing_deal_frame_witness :
    (CrmCall.updateLeadFields workedLead.id
      (buildUpdateArgs sampleSettings samplePayment none true) ∈
      (process_payment sampleSettings envWorked [] samplePayment).2.2) ∧
    ((buildUpdateArgs sampleSettings samplePayment none true).status_id = none ∧
      (buildUpdateArgs sampleSettings samplePayment none true).utm_source = none ∧
      (buildUpdateArgs sampleSettings samplePayment none true).utm_medium = none ∧
      (buildUpdateArgs sampleSettings samplePayment none true).utm_campaign = none ∧
      (buildUpdateArgs sampleSettings samplePayment none true).utm_content = none ∧
      (buildUpdateArgs sampleSettings samplePayment none true).utm_term = none ∧
      (buildUpdateArgs sampleSettings samplePayment none true).ym_uid = none) ∧
    (∀ st : LeadState,
      (update_lead_fields sampleSettings st
        (buildUpdateArgs sampleSettings samplePayment none true)).pipeline_id =
        st.pipeline_id ∧
      (update_lead_fields sampleSettings st
        (buildUpdateArgs sampleSettings samplePayment none true)).status_id =
        st.status_id ∧
      (update_lead_fields sampleSettings st
        (buildUpdateArgs sampleSettings samplePayment none true)).utm_source =
        st.utm_source ∧
      (update_lead_fields sampleSettings st
        (buildUpdateArgs sampleSettings samplePayment none true)).utm_medium =
        st.utm_medium ∧
      (update_lead_fields sampleSettings st
        (buildUpdateArgs sampleSettings samplePayment none true)).utm_campaign =
        st.utm_campaign ∧
      (update_lead_fields sampleSettings st
        (buildUpdateArgs sampleSettings samplePayment none true)).utm_content =
        st.utm_content ∧
      (update_lead_fields sampleSettings st
        (buildUpdateArgs sampleSettings samplePayment none true)).utm_term =
        st.utm_term ∧
      (update_lead_fields sampleSettings st
        (buildUpdateArgs sampleSettings samplePayment none true)).ym_uid =
        st.ym_uid) ∧
    ((process_payment sampleSettings envWorked [] samplePayment).1.status =
        "success" →
      ∃ row, (process_payment sampleSettings envWorked [] samplePayment).2.1 =
          [] ++ [row] ∧
        row.payment_id = paymentIdOrUnknown samplePayment ∧
        row.status = "success" ∧ row.is_lead_created = false ∧
        row.contact_id = some 5 ∧ row.lead_id = some workedLead.id ∧
        row.pipeline_id = some workedLead.pipeline_id ∧
        row.status_id = some workedLead.status_id) :=
  claim_c5_existing_deal_frame sampleSettings envWorked [] samplePayment
    workedLead 5 (by decide) rfl (by decide) rfl (by decide)
